import Mathlib

/-!
# Shallow embedding of the `manager` backend (authorization + audit core)

This file embeds, in Lean, the data model and the operations of the
project/task collaboration backend found under `src/`: the SQLAlchemy
table models (`src/models/*.py`), the mutation services
(`src/services/*.py`), the access-check decorators
(`src/core/utils/check_access.py`) and the relevant FastAPI route
handlers (`src/api/v1/**`).  Opaque UUID primary keys are modelled as
`Nat`; a SQL `SELECT ... WHERE` becomes `List.filter`, and
`scalars().first()` becomes `.head?` on the filtered list.  Row inserts
draw fresh ids from a `next_id` counter carried by the store.
Timestamps are omitted: none of the properties proved here depends on
creation instants or on `ORDER BY`.

Theorems about the claims follow the definitions.
-/

namespace Manager

/-- Embeds `Roles` enum from `src/models/user_models.py`. -/
inductive Role
  | admin
  | member
deriving DecidableEq, Repr

/-- The principal data the routes read from the authenticated `User`
(`user.id`, `user.role`, `user.is_superuser`). -/
structure User where
  id : Nat
  role : Role
  is_superuser : Bool
deriving DecidableEq, Repr

/-- Embeds `Team` row (`src/models/team_models.py`): id, title, owning user. -/
structure Team where
  id : Nat
  title : String
  user_id : Nat
deriving DecidableEq, Repr

/-- Embeds `TeamMember` row (`src/models/team_models.py`).  Note: the table
declares no uniqueness constraint on `(team_id, user_id)`. -/
structure TeamMember where
  id : Nat
  user_id : Nat
  team_id : Nat
deriving DecidableEq, Repr

/-- Embeds `Project` row (`src/models/project_models.py`); `team_id` is a
nullable foreign key, and `(user_id, title)` carries the unique
constraint `uq_user_project_title`. -/
structure Project where
  id : Nat
  title : String
  description : Option String
  user_id : Nat
  team_id : Option Nat
deriving DecidableEq, Repr

/-- Embeds `TaskStatus` enum from `src/models/task_models.py`. -/
inductive TaskStatus
  | todo
  | in_progress
  | done
deriving DecidableEq, Repr

/-- Embeds `TaskPriority` enum from `src/models/task_models.py`. -/
inductive TaskPriority
  | low
  | medium
  | high
deriving DecidableEq, Repr

/-- Embeds `Task` row (`src/models/task_models.py`); `due_date` is abstracted
to `Nat`, `assigned_id` is nullable. -/
structure Task where
  id : Nat
  project_id : Nat
  title : String
  description : Option String
  status : TaskStatus
  priority : TaskPriority
  due_date : Nat
  user_id : Nat
  assigned_id : Option Nat
deriving DecidableEq, Repr

/-- Embeds `TaskComment` row (`src/models/task_models.py`): the body lives in
the non-nullable `comment` column. -/
structure TaskComment where
  id : Nat
  task_id : Nat
  user_id : Nat
  comment : String
deriving DecidableEq, Repr

/-- Embeds `ActivityType` enum from `src/models/activity_models.py`. -/
inductive ActivityType
  | create
  | update
  | delete
  | comment
deriving DecidableEq, Repr

/-- Embeds `ActivityLog` row (`src/models/activity_models.py`): all foreign
keys nullable, plus the entity tag pair and a free-text description. -/
structure ActivityLog where
  id : Nat
  user_id : Option Nat
  project_id : Option Nat
  task_id : Option Nat
  team_id : Option Nat
  comment_id : Option Nat
  activity_type : ActivityType
  entity : String
  entity_id : Nat
  description : String
deriving DecidableEq, Repr

/-- The relational store: one list per table, plus a counter supplying
fresh primary keys for inserted rows. -/
structure Store where
  teams : List Team
  members : List TeamMember
  projects : List Project
  tasks : List Task
  comments : List TaskComment
  logs : List ActivityLog
  next_id : Nat
deriving DecidableEq, Repr

/-- The Python value a call site binds into the `entity_id` column:
either the raw `uuid.UUID` (most service and route payloads, e.g.
`"entity_id": project.id`) or a string (`"entity_id": str(team_id)`
in the team and task routes).  The column is `String(length=100)`
(`src/models/activity_models.py` line 52), and the stack is
Postgres over asyncpg (`src/db/db_session.py` line 17), which
rejects a `UUID` bound to a varchar parameter. -/
inductive EntityIdValue
  | uuid (id : Nat)
  | str (id : Nat)
deriving DecidableEq, Repr

/-- Payload of `ActivityServices.create_activity` (the `activity_data`
dict built at each call site). -/
structure ActivityData where
  user_id : Option Nat
  project_id : Option Nat
  task_id : Option Nat
  team_id : Option Nat
  comment_id : Option Nat
  activity_type : ActivityType
  entity : String
  entity_id : EntityIdValue
  description : String
deriving DecidableEq, Repr

/-- Embeds `ActivityServices.create_activity` (`src/services/activity_services.py`):
builds an `ActivityLog` from the payload and commits the INSERT.
When the payload carries a raw `uuid.UUID` as `entity_id`, asyncpg
refuses to bind it into the `String(100)` column (`DataError`, a
`SQLAlchemyError`): the `except` clause rolls the insert back and the
method returns `None`, leaving the store unchanged.  A string-valued
`entity_id` inserts and returns the row. -/
def create_activity (s : Store) (d : ActivityData) : Store × Option ActivityLog :=
  match d.entity_id with
  | .uuid _ => (s, none)
  | .str v =>
    let log : ActivityLog :=
      { id := s.next_id
        user_id := d.user_id
        project_id := d.project_id
        task_id := d.task_id
        team_id := d.team_id
        comment_id := d.comment_id
        activity_type := d.activity_type
        entity := d.entity
        entity_id := v
        description := d.description }
    ({ s with logs := s.logs ++ [log], next_id := s.next_id + 1 }, some log)

/-- Embeds `TeamServices.get_user_team_by_id` (`src/services/team_services.py`):
`SELECT Team WHERE Team.user_id == user_id AND Team.id == team_id`,
first row.  The `team_id` argument can be Python `None` (for example
`data["team_id"]` in `create_project`); SQL `Team.id == NULL` matches
no row, which `some t.id == team_id` reproduces. -/
def get_user_team_by_id (s : Store) (user_id : Nat) (team_id : Option Nat) : Option Team :=
  (s.teams.filter (fun t => t.user_id == user_id && some t.id == team_id)).head?

/-- Result of a service call that can return a row, return Python
`None` (a swallowed `SQLAlchemyError`), or let an `HTTPException`
escape. -/
inductive SvcResult (α : Type)
  | ok (a : α)
  | none_
  | httpError (code : Nat) (detail : String)
deriving DecidableEq, Repr

/-- The `data` dict passed to `ProjectServices.create_project`: the
`CreateProject` schema fields plus the `user_id` the route adds. -/
structure ProjectCreate where
  title : String
  description : Option String
  team_id : Option Nat
  user_id : Nat
deriving DecidableEq, Repr

/-- Embeds `ProjectServices.create_project` (`src/services/project_services.py`,
lines 32-70): looks up `data["team_id"]` among the teams owned by
`data["user_id"]` and raises `HTTPException(404, "Team not found")`
when there is none (also when `team_id` is `None`); otherwise inserts
the project — the commit raises `IntegrityError` (caught, `None`
returned) when `(user_id, title)` collides with
`uq_user_project_title` — and then attempts one CREATE activity row,
passing the raw `project.id` as `entity_id` (line 60).  The tail of
the method is `if log: return project` with no other return: when the
audit insert fails the method returns `None` even though the project
row is already committed. -/
def create_project (s : Store) (data : ProjectCreate) : Store × SvcResult Project :=
  match get_user_team_by_id s data.user_id data.team_id with
  | none => (s, .httpError 404 "Team not found")
  | some _ =>
    if s.projects.any (fun p => p.user_id == data.user_id && p.title == data.title) then
      (s, .none_)
    else
      let p : Project :=
        { id := s.next_id
          title := data.title
          description := data.description
          user_id := data.user_id
          team_id := data.team_id }
      let s1 : Store := { s with projects := s.projects ++ [p], next_id := s.next_id + 1 }
      match create_activity s1
        { user_id := some p.user_id
          project_id := some p.id
          task_id := none
          team_id := p.team_id
          comment_id := none
          activity_type := .create
          entity := "project"
          entity_id := .uuid p.id
          description := "Project " ++ toString p.id ++ " has been created." } with
      | (s2, some _) => (s2, .ok p)
      | (s2, none) => (s2, .none_)

/-- Embeds `ProjectServices.get_user_project_by_id`: `SELECT Project WHERE
Project.id == project_id AND Project.user_id == user_id`, first row. -/
def get_user_project_by_id (s : Store) (user_id project_id : Nat) : Option Project :=
  (s.projects.filter (fun p => p.id == project_id && p.user_id == user_id)).head?

/-- Outcome of a FastAPI route handler. -/
inductive RouteResult (α : Type)
  | ok (a : α)
  | httpError (code : Nat) (detail : String)
deriving DecidableEq, Repr

/-- The `CreateProject` request schema (`src/schemas/project_schemas.py`). -/
structure CreateProjectSchema where
  title : String
  description : Option String
  team_id : Option Nat
deriving DecidableEq, Repr

/-- Route handler `create_project`
(`src/api/v1/projects/project_routes.py`, lines 20-62): adds
`user_id` to the payload, calls the service, and on success writes a
second CREATE activity row of its own before returning the project.
Every exception raised inside the `try` block — the service's 404,
or the handler's own 422 for a falsy result — is caught by
`except Exception` and re-raised as a 500.  The route's own audit
payload also passes the raw `new_project.id` as `entity_id`
(`project_routes.py` line 51). -/
def create_project_route (s : Store) (u : User) (req : CreateProjectSchema) :
    Store × RouteResult Project :=
  let d : ProjectCreate :=
    { title := req.title, description := req.description
      team_id := req.team_id, user_id := u.id }
  match create_project s d with
  | (s1, .ok p) =>
    let s2 := (create_activity s1
      { user_id := some p.user_id
        project_id := some p.id
        task_id := none
        team_id := p.team_id
        comment_id := none
        activity_type := .create
        entity := "project"
        entity_id := .uuid p.id
        description := "A new Project with id " ++ toString p.id ++ " has been created." }).1
    (s2, .ok p)
  | (s1, .none_) => (s1, .httpError 500 "Error creating project")
  | (s1, .httpError _ _) => (s1, .httpError 500 "Error creating project")

/-- Outcome of `require_project_access`
(`src/core/utils/check_access.py`, lines 10-43): `attributeError` is
the `AttributeError` escaping the decorator, which the calling
routes' `except Exception` turn into a 500. -/
inductive AccessResult
  | badRequest
  | notFound
  | attributeError
deriving DecidableEq, Repr

/-- The access check performed by the `require_project_access`
decorator (`src/core/utils/check_access.py`, lines 10-43): 400 when
either argument is missing from the kwargs; 404 when no project has
the given id.  When the project exists, line 31 reads
`project.owner_id` — but the `Project` model
(`src/models/project_models.py`) defines `user_id` and no `owner_id`
attribute, so the read raises `AttributeError` before any entitlement
is decided.  The owner comparison, the team query of lines 32-35
(which would match only the **team's owner**, `Team.user_id ==
user_id`, never the `TeamMember` table) and the 403 of line 38 are
all dead code: no caller is ever allowed through for an existing
project. -/
def require_project_access (s : Store) (project_id user_id : Option Nat) : AccessResult :=
  match project_id, user_id with
  | some pid, some _ =>
    match (s.projects.filter (fun p => p.id == pid)).head? with
    | none => .notFound
    | some _ => .attributeError
  | _, _ => .badRequest

/-- The join rows produced by the query inside
`ProjectServices.get_project_if_member`
(`src/services/project_services.py`, lines 159-189): `Project`
outer-joined to its `Team` and to that team's `TeamMember` rows,
filtered by `Project.id == project_id AND (TeamMember.user_id ==
user_id OR Project.user_id == user_id)`. -/
def if_member_rows (s : Store) (project_id user_id : Nat) : List Project :=
  ((s.projects.filter (fun p => p.id == project_id)).flatMap (fun p =>
    let teamRows := s.teams.filter (fun t => some t.id == p.team_id)
    let joined : List (Project × Option TeamMember) :=
      if teamRows.isEmpty then [(p, none)]
      else teamRows.flatMap (fun t =>
        let ms := s.members.filter (fun m => m.team_id == t.id)
        if ms.isEmpty then [(p, none)] else ms.map (fun m => (p, some m)))
    (joined.filter (fun pm =>
      (match pm.2 with
       | some m => m.user_id == user_id
       | none => false) ||
      pm.1.user_id == user_id)).map (fun pm => pm.1)))

/-- Embeds `ProjectServices.get_project_if_member`: `scalar_one_or_none` on
the join above — one row yields the project, zero yields `None`, and
more than one raises `MultipleResultsFound` (a `SQLAlchemyError`),
which the `except` clause turns into `None`. -/
def get_project_if_member (s : Store) (project_id user_id : Nat) : Option Project :=
  match if_member_rows s project_id user_id with
  | [p] => some p
  | _ => none

/-- Which branch of the route handler `get_all_teams`
(`src/api/v1/teams/team_routes.py`, lines 76-116) the request takes. -/
inductive TeamsListBranch
  | admin_list (owner : Nat)
  | owner_required
  | own_list
deriving DecidableEq, Repr

/-- The branch selector of `get_all_teams` (line 98 of
`src/api/v1/teams/team_routes.py`): the admin path is guarded by
`user.is_superuser or user.role == "admin"` — a disjunction.  On the
admin path a missing `owner_id` raises 400 `"Owner ID is required for
superusers"`; otherwise the handler lists the teams of the supplied
`owner_id`.  Off the admin path it lists the caller's own teams. -/
def get_all_teams_branch (u : User) (owner_id : Option Nat) : TeamsListBranch :=
  if u.is_superuser || u.role == Role.admin then
    match owner_id with
    | none => .owner_required
    | some o => .admin_list o
  else .own_list

/-- Embeds `TaskCommentService.get_comment_by_id`
(`src/services/task_services.py`, lines 293-310): `SELECT TaskComment
WHERE TaskComment.id == comment_id`, first row.  The `user_id`
parameter is accepted but never used in the query. -/
def get_comment_by_id (s : Store) (comment_id : Nat) (_user_id : Nat) : Option TaskComment :=
  (s.comments.filter (fun c => c.id == comment_id)).head?

/-- Embeds `TaskCommentService.update_comment`
(`src/services/task_services.py`, lines 371-413): selects the comment
by id **and author**, applies the `UpdateTaskComment` payload — whose
single key is `comment`, an `Optional[str]`; a `None` value makes the
commit violate the NOT NULL constraint on the `comment` column, the
`SQLAlchemyError` is caught, and `None` is returned — then attempts
one UPDATE activity row (raw `comment.id` as `entity_id`, so the
insert fails); that result is never examined, and the comment is
returned regardless. -/
def update_comment (s : Store) (comment_id user_id : Nat) (data : Option String) :
    Store × Option TaskComment :=
  match (s.comments.filter (fun c => c.id == comment_id && c.user_id == user_id)).head? with
  | none => (s, none)
  | some c =>
    match data with
    | none => (s, none)
    | some v =>
      let c' : TaskComment := { c with comment := v }
      let s1 : Store :=
        { s with comments := s.comments.map (fun x => if x.id == c.id then c' else x) }
      let s2 := (create_activity s1
        { user_id := some c'.user_id
          project_id := none
          task_id := some c'.task_id
          team_id := none
          comment_id := some c'.id
          activity_type := .update
          entity := "comment"
          entity_id := .uuid c'.id
          description := "Task " ++ toString c'.id ++ " has been updated." }).1
      (s2, some c')

/-- Embeds `TaskCommentService.delete_comment`
(`src/services/task_services.py`, lines 333-369): selects the comment
by author and id, attempts one DELETE activity row (raw `comment.id`
as `entity_id`, so the insert fails; the result is never examined),
deletes the row and returns `True`; with no match it returns `None`. -/
def delete_comment (s : Store) (comment_id user_id : Nat) : Store × Option Bool :=
  match (s.comments.filter (fun c => c.user_id == user_id && c.id == comment_id)).head? with
  | none => (s, none)
  | some c =>
    let s1 := (create_activity s
      { user_id := some c.user_id
        project_id := none
        task_id := some c.task_id
        team_id := none
        comment_id := some c.id
        activity_type := .delete
        entity := "comment"
        entity_id := .uuid c.id
        description := "Task " ++ toString c.id ++ " has been deleted." }).1
    ({ s1 with comments := s1.comments.filter (fun x => x.id != c.id) }, some true)

/-- Outcome of the decorated `ActivityServices.delete_activity`. -/
inductive ActivityDeleteResult
  | httpError (code : Nat)
  | serverError
deriving DecidableEq, Repr

/-- Embeds `ActivityServices.delete_activity`
(`src/services/activity_services.py`, lines 266-292), wrapped by
`@require_project_access("project_id", "user_id")`: the decorator's
HTTP errors propagate, and for every existing project the decorator
raises `AttributeError` (reading `project.owner_id`) before the
wrapped method runs.  The method body of lines 280-292 — select the
`ActivityLog` row by id and project, delete it, return `True` — is
therefore dead code: no call ever reaches it, and no application path
deletes a log row.  The `serverError` outcome is the `AttributeError`
surfacing as 500 through the route's `except Exception`. -/
def delete_activity (s : Store) (_activity_id : Nat) (project_id user_id : Option Nat) :
    Store × ActivityDeleteResult :=
  match require_project_access s project_id user_id with
  | .badRequest => (s, .httpError 400)
  | .notFound => (s, .httpError 404)
  | .attributeError => (s, .serverError)

/-- Embeds `ProjectServices.update_project`
(`src/services/project_services.py`, lines 237-279): selects the
project by id **and owner**; with no match it returns `None` without
touching the store.  On a match it applies the patch (the route's
`UpdateProject.model_dump()` written onto the row field by field,
abstracted here as a row transformer), commits, and attempts one
UPDATE activity row with the raw `project.id` as `entity_id` (line
269).  The tail is `if log: return project` / `return None`: since
the audit insert fails, the method returns `None` although the
mutation is already committed. -/
def update_project (s : Store) (project_id user_id : Nat) (data : Project → Project) :
    Store × Option Project :=
  match (s.projects.filter (fun p => p.id == project_id && p.user_id == user_id)).head? with
  | none => (s, none)
  | some p =>
    let p' := data p
    let s1 : Store :=
      { s with projects := s.projects.map (fun x => if x.id == p.id then p' else x) }
    match create_activity s1
      { user_id := some p'.user_id
        project_id := some p'.id
        task_id := none
        team_id := p'.team_id
        comment_id := none
        activity_type := .update
        entity := "project"
        entity_id := .uuid p'.id
        description := "Project " ++ toString p'.id ++ " has been updated." } with
    | (s2, some _) => (s2, some p')
    | (s2, none) => (s2, none)

/-- Embeds `ProjectServices.delete_project`
(`src/services/project_services.py`, lines 281-320): selects the
project by id **and owner**; with no match it returns `None` without
touching the store.  On a match it deletes the row, commits, and
attempts one DELETE activity row with the raw `project.id` as
`entity_id` (line 310).  The tail is `if log: return True` / `return
None`: since the audit insert fails, the method returns `None`
although the delete is already committed. -/
def delete_project (s : Store) (project_id user_id : Nat) : Store × Option Bool :=
  match (s.projects.filter (fun p => p.id == project_id && p.user_id == user_id)).head? with
  | none => (s, none)
  | some p =>
    let s1 : Store := { s with projects := s.projects.filter (fun x => x.id != p.id) }
    match create_activity s1
      { user_id := some p.user_id
        project_id := some p.id
        task_id := none
        team_id := p.team_id
        comment_id := none
        activity_type := .delete
        entity := "project"
        entity_id := .uuid p.id
        description := "Project " ++ toString p.id ++ " has been deleted." } with
    | (s2, some _) => (s2, some true)
    | (s2, none) => (s2, none)

/-- One `key: value` entry of the dict passed to
`TaskServices.update_task`; the constructors cover every column a
caller could name, including the two the allow-list excludes. -/
inductive TaskPatchEntry
  | title (v : String)
  | description (v : Option String)
  | status (v : TaskStatus)
  | priority (v : TaskPriority)
  | due_date (v : Nat)
  | assigned_id (v : Option Nat)
  | project_id (v : Nat)
  | user_id (v : Nat)
deriving DecidableEq, Repr

/-- The dict key of a patch entry. -/
def entry_key : TaskPatchEntry → String
  | .title _ => "title"
  | .description _ => "description"
  | .status _ => "status"
  | .priority _ => "priority"
  | .due_date _ => "due_date"
  | .assigned_id _ => "assigned_id"
  | .project_id _ => "project_id"
  | .user_id _ => "user_id"

/-- The `ALLOWED_FIELDS` set inside `TaskServices.update_task`
(`src/services/task_services.py`, lines 220-222). -/
def ALLOWED_FIELDS : List String :=
  ["title", "description", "status", "priority", "due_date", "assigned_id"]

/-- Embeds `setattr(task, key, value)` for one patch entry. -/
def set_task_attr (t : Task) : TaskPatchEntry → Task
  | .title v => { t with title := v }
  | .description v => { t with description := v }
  | .status v => { t with status := v }
  | .priority v => { t with priority := v }
  | .due_date v => { t with due_date := v }
  | .assigned_id v => { t with assigned_id := v }
  | .project_id v => { t with project_id := v }
  | .user_id v => { t with user_id := v }

/-- The patch loop of `update_task`: `for key, value in data.items():
if key in ALLOWED_FIELDS: setattr(task, key, value)`. -/
def apply_task_patch (t : Task) (data : List TaskPatchEntry) : Task :=
  data.foldl (fun acc e =>
    if ALLOWED_FIELDS.contains (entry_key e) then set_task_attr acc e else acc) t

/-- Embeds `TaskServices.update_task` (`src/services/task_services.py`,
lines 196-244): selects the task by id where the principal is its
assignee or its creator; with no match it returns `None`.  On a match
it runs the allow-listed patch loop, commits, and attempts one UPDATE
activity row (raw `task.id` as `entity_id`, so the insert fails); the
result of that call is never examined, and the task is returned
regardless. -/
def update_task (s : Store) (task_id user_id : Nat) (data : List TaskPatchEntry) :
    Store × Option Task :=
  match (s.tasks.filter (fun t =>
      t.id == task_id && (t.assigned_id == some user_id || t.user_id == user_id))).head? with
  | none => (s, none)
  | some t =>
    let t' := apply_task_patch t data
    let s1 : Store := { s with tasks := s.tasks.map (fun x => if x.id == t.id then t' else x) }
    let s2 := (create_activity s1
      { user_id := some t'.user_id
        project_id := some t'.project_id
        task_id := some t'.id
        team_id := none
        comment_id := none
        activity_type := .update
        entity := "task"
        entity_id := .uuid t'.id
        description := "Task " ++ toString t'.id ++ " has been updated." }).1
    (s2, some t')

/-- The `CreateTeamMember` payload (`src/schemas/team_schemas.py`). -/
structure MemberCreate where
  team_id : Nat
  user_id : Nat
deriving DecidableEq, Repr

/-- Embeds `TeamMemberServices.add_member_to_team`
(`src/services/team_services.py`, lines 227-250): looks the team up
among those owned by `team_owner_id`; the 404 raised when it is
missing is caught by the method's own `except Exception`, which
returns `None`.  Otherwise it inserts the `TeamMember` row and
commits — the table has no `(team_id, user_id)` uniqueness
constraint, so the insert succeeds even when the pair already
exists — and returns the new row. -/
def add_member_to_team (s : Store) (team_owner_id : Nat) (data : MemberCreate) :
    Store × Option TeamMember :=
  match get_user_team_by_id s team_owner_id (some data.team_id) with
  | none => (s, none)
  | some team =>
    let m : TeamMember := { id := s.next_id, user_id := data.user_id, team_id := team.id }
    ({ s with members := s.members ++ [m], next_id := s.next_id + 1 }, some m)

/-- How many `TeamMember` rows carry a given `(team_id, user_id)` pair. -/
def count_members_pair (s : Store) (team_id user_id : Nat) : Nat :=
  (s.members.filter (fun m => m.team_id == team_id && m.user_id == user_id)).length

/-! ## Concrete stores used by the claim theorems -/

/-- A store holding one team (id 10) owned by user 1 and nothing else. -/
def team_only_store : Store :=
  { teams := [⟨10, "T", 1⟩], members := [], projects := [], tasks := [],
    comments := [], logs := [], next_id := 100 }

/-- A store holding one project (id 1) owned by user 1, personal (no team). -/
def personal_project_store : Store :=
  { teams := [], members := [], projects := [⟨1, "P", none, 1, none⟩], tasks := [],
    comments := [], logs := [], next_id := 100 }

/-- A store where team 10 is owned by user 2, user 3 is a `TeamMember`
of team 10, and project 1 (owned by user 2) belongs to team 10. -/
def member_store : Store :=
  { teams := [⟨10, "T", 2⟩], members := [⟨20, 3, 10⟩],
    projects := [⟨1, "P", none, 2, some 10⟩], tasks := [],
    comments := [], logs := [], next_id := 100 }

/-- A store holding one comment (id 5, task 1) authored by user 1. -/
def comment_store : Store :=
  { teams := [], members := [], projects := [], tasks := [],
    comments := [⟨5, 1, 1, "hi"⟩], logs := [], next_id := 100 }

/-! ## C1 -/

/-- C1: a create of a Project through the route handler, with a valid
owned team and a fresh title, commits the Project row but ends with
**zero** `ActivityLog` rows and a 500 response: the service's audit
INSERT fails (raw `uuid.UUID` bound into the `String(100)`
`entity_id` column), the `if log: return project` guard then makes
`create_project` return `None`, and the route turns the falsy result
into an error — so no successful create exists, the mutation is
silently half-done, and no audit row is ever written, contradicting
the exactly-one-audit-row claim. -/
theorem create_project_route_audit_write_fails :
    ((create_project_route team_only_store ⟨1, Role.member, false⟩ ⟨"X", none, some 10⟩).2 =
      RouteResult.httpError 500 "Error creating project") ∧
    ((create_project_route team_only_store ⟨1, Role.member, false⟩
        ⟨"X", none, some 10⟩).1.projects = [⟨100, "X", none, 1, some 10⟩]) ∧
    ((create_project_route team_only_store ⟨1, Role.member, false⟩
        ⟨"X", none, some 10⟩).1.logs = []) := by
  refine ⟨rfl, rfl, rfl⟩

/-! ## C2 -/

/-- C2 counterexample: a principal whose role is `admin` but whose
`is_superuser` flag is `false` **does** enter the admin branch of the
Team listing route `get_all_teams` (listing teams for an arbitrary
`owner_id`), because the guard is the disjunction
`user.is_superuser or user.role == "admin"` — the request is not
denied. -/
theorem admin_without_superuser_enters_admin_branch :
    get_all_teams_branch ⟨7, Role.admin, false⟩ (some 5) = TeamsListBranch.admin_list 5 ∧
    get_all_teams_branch ⟨7, Role.admin, false⟩ (some 5) ≠ TeamsListBranch.own_list := by
  constructor
  · rfl
  · intro h
    cases h

/-- C2 amended: the admin branch of `get_all_teams` is entered exactly
when `is_superuser` **or** `role == admin` holds — the dual-flag
conjunction is not required on this route, so either flag alone
suffices. -/
theorem get_all_teams_branch_is_disjunctive
    (i o : Nat) (r : Role) (su : Bool) :
    get_all_teams_branch ⟨i, r, su⟩ (some o) = TeamsListBranch.admin_list o ↔
      (su = true ∨ r = Role.admin) := by
  cases su <;> cases r <;>
    simp [get_all_teams_branch]

/-! ## C3 -/

/-- C3 counterexample: for project 1 (owned by user 1) and principal 2
— who is neither owner nor entitled via a team — the
`require_project_access` check does **not** yield the `.notFound`
outcome the claim requires: it crashes with `AttributeError` (line 31
reads `project.owner_id`, which the `Project` model lacks), which the
routes surface as a 500 — an outcome distinguishable from the
project-absent 404. -/
theorem require_project_access_denial_is_not_notFound :
    require_project_access personal_project_store (some 1) (some 2) =
      AccessResult.attributeError ∧
    require_project_access personal_project_store (some 1) (some 2) ≠
      AccessResult.notFound := by
  constructor
  · rfl
  · intro h
    cases h

/-! ## C4 -/

/-- C4: user 3 is a `TeamMember` of team 10 and project 1 belongs to
team 10, yet `require_project_access` does not allow user 3 — the
check raises `AttributeError` (reading the nonexistent
`project.owner_id`) before any owner or membership test, so the
request 500s; and even its fallback query (dead code) matches only
`Team.user_id == user_id`, the **team's owner**, never the
`TeamMember` table.  The decorator's own docstring promises "owner or
team member" and the sibling query `get_project_if_member` does admit
user 3, which this theorem also evaluates. -/
theorem require_project_access_denies_team_member :
    require_project_access member_store (some 1) (some 3) = AccessResult.attributeError ∧
    get_project_if_member member_store 1 3 = some ⟨1, "P", none, 2, some 10⟩ := by
  constructor <;> rfl

/-! ## C5 -/

/-- C5 counterexample: `create_project` with `team_id = None` does not
succeed: `get_user_team_by_id` finds no team whose id equals SQL
`NULL`, so the service raises `HTTPException(404, "Team not found")`
and no project is created — even for a user who does own a team. -/
theorem create_project_rejects_null_team :
    create_project team_only_store ⟨"X", none, none, 1⟩ =
      (team_only_store, SvcResult.httpError 404 "Team not found") := by
  rfl

/-! ## C6 -/

/-- C6 counterexample: principal 2 is not the author of comment 5
(authored by user 1), yet `get_comment_by_id` returns the comment:
the read path carries no author restriction, so not every Comment
operation denies non-authors. -/
theorem get_comment_by_id_ignores_author :
    get_comment_by_id comment_store 5 2 = some ⟨5, 1, 1, "hi"⟩ := by
  rfl

/-! ## C10 -/

/-- C10 counterexample: adding user 2 to team 10 twice through
`add_member_to_team` succeeds both times — the second call is not
reported as any kind of error — and leaves two `TeamMember` rows
sharing the `(team_id, user_id)` pair `(10, 2)`: uniqueness per
`(team, user)` is not enforced by the store. -/
theorem add_member_to_team_allows_duplicates :
    (add_member_to_team (add_member_to_team team_only_store 1 ⟨10, 2⟩).1 1 ⟨10, 2⟩).2 ≠ none ∧
    count_members_pair
      (add_member_to_team (add_member_to_team team_only_store 1 ⟨10, 2⟩).1 1 ⟨10, 2⟩).1
      10 2 = 2 := by
  constructor
  · intro h
    cases h
  · rfl

/-- A store with team 10 owned by user 1 and user 2 already a member. -/
def dup_member_store : Store :=
  { teams := [⟨10, "T", 1⟩], members := [⟨20, 2, 10⟩], projects := [], tasks := [],
    comments := [], logs := [], next_id := 100 }

/-- A store with task 1 in project 2, created by user 4, assigned to user 5. -/
def task_store : Store :=
  { teams := [], members := [], projects := [], comments := [], logs := [], next_id := 100,
    tasks := [⟨1, 2, "t", none, .todo, .low, 0, 4, some 5⟩] }

/-! ## C2 witness -/

/-- C2 witness: `get_all_teams_branch_is_disjunctive` applied to a
concrete admin-without-superuser principal. -/
theorem get_all_teams_branch_is_disjunctive_w :
    get_all_teams_branch ⟨9, Role.admin, false⟩ (some 4) = TeamsListBranch.admin_list 4 :=
  (get_all_teams_branch_is_disjunctive 9 4 Role.admin false).mpr (Or.inr rfl)

/-! ## C3 amended -/

/-- C3 amended: denial is never surfaced as "not found".  A missing
project yields `.notFound` (404), but whenever the project exists —
for every principal, entitled or not — `require_project_access`
raises `AttributeError` (line 31 reads `project.owner_id`, which the
`Project` model does not define), surfacing as a 500 distinguishable
from the 404; the 403 of line 38 and the team fallback are dead
code. -/
theorem require_project_access_crashes_on_existing_project (s : Store) (pid uid : Nat) :
    ((s.projects.filter (fun p => p.id == pid)).head? = none →
      require_project_access s (some pid) (some uid) = AccessResult.notFound) ∧
    (∀ p, (s.projects.filter (fun x => x.id == pid)).head? = some p →
      require_project_access s (some pid) (some uid) = AccessResult.attributeError) := by
  constructor
  · intro h
    simp only [require_project_access, h]
  · intro p hp
    simp only [require_project_access, hp]

/-- C3 witness: `require_project_access_crashes_on_existing_project`
applied to concrete stores — a store with no project 1 gives
`.notFound`, and a store where project 1 exists (owner 1, caller 2)
gives the `AttributeError` outcome. -/
theorem require_project_access_crashes_on_existing_project_w :
    require_project_access team_only_store (some 1) (some 2) = AccessResult.notFound ∧
    require_project_access personal_project_store (some 1) (some 2) =
      AccessResult.attributeError :=
  ⟨(require_project_access_crashes_on_existing_project team_only_store 1 2).1 rfl,
   (require_project_access_crashes_on_existing_project personal_project_store 1 2).2
     ⟨1, "P", none, 1, none⟩ rfl⟩

/-! ## C5 amended -/

/-- C5 amended: `create_project` always requires a team owned by the
creating principal: with `team_id = None` it fails with
`HTTPException(404, "Team not found")` and leaves the store unchanged
(personal projects cannot be created).  With a `team_id` resolving to
a team owned by the same principal, plus a fresh title, the Project
row — same title, the creator as owner, that `team_id` — is committed
and readable back through `get_user_project_by_id`, but the service
call itself returns `None`: its audit insert fails (raw `uuid.UUID`
into the `String(100)` `entity_id` column) and the `if log: return
project` guard falls through. -/
theorem create_project_requires_owned_team (s : Store) (d : ProjectCreate) :
    (d.team_id = none →
      create_project s d = (s, SvcResult.httpError 404 "Team not found")) ∧
    (∀ t, get_user_team_by_id s d.user_id d.team_id = some t →
      (∀ p ∈ s.projects, ¬(p.user_id = d.user_id ∧ p.title = d.title)) →
      (∀ p ∈ s.projects, p.id ≠ s.next_id) →
      (create_project s d).2 = SvcResult.none_ ∧
      get_user_project_by_id (create_project s d).1 d.user_id s.next_id =
        some ⟨s.next_id, d.title, d.description, d.user_id, d.team_id⟩) := by
  constructor
  · intro h
    have hteam : get_user_team_by_id s d.user_id d.team_id = none := by
      have : s.teams.filter (fun t => t.user_id == d.user_id && some t.id == d.team_id) = [] := by
        apply List.filter_eq_nil_iff.mpr
        intro t _
        simp [h]
      simp only [get_user_team_by_id, this, List.head?_nil]
    simp only [create_project, hteam]
  · intro t ht h2 h3
    have hany : s.projects.any (fun p => p.user_id == d.user_id && p.title == d.title)
        = false := by
      rw [Bool.eq_false_iff]
      intro hx
      rw [List.any_eq_true] at hx
      obtain ⟨p, hp, hpp⟩ := hx
      simp only [Bool.and_eq_true, beq_iff_eq] at hpp
      exact h2 p hp hpp
    constructor
    · simp only [create_project, ht, hany, Bool.false_eq_true, if_false, create_activity]
    · simp only [create_project, ht, hany, Bool.false_eq_true, if_false, create_activity,
        get_user_project_by_id, List.filter_append]
      have hleft : s.projects.filter
          (fun p => p.id == s.next_id && p.user_id == d.user_id) = [] := by
        apply List.filter_eq_nil_iff.mpr
        intro p hp
        simp [h3 p hp]
      rw [hleft]
      simp

/-- C5 witness: `create_project_requires_owned_team` applied to a
concrete store where user 1 owns team 10: the null-team create fails
with 404, and the team-backed create commits a row that reads back,
while the service returns `None`. -/
theorem create_project_requires_owned_team_w :
    (create_project team_only_store ⟨"X", none, none, 1⟩ =
      (team_only_store, SvcResult.httpError 404 "Team not found")) ∧
    ((create_project team_only_store ⟨"X", none, some 10, 1⟩).2 = SvcResult.none_ ∧
      get_user_project_by_id (create_project team_only_store ⟨"X", none, some 10, 1⟩).1
        1 100 = some ⟨100, "X", none, 1, some 10⟩) :=
  ⟨(create_project_requires_owned_team team_only_store ⟨"X", none, none, 1⟩).1 rfl,
   (create_project_requires_owned_team team_only_store ⟨"X", none, some 10, 1⟩).2
     ⟨10, "T", 1⟩ rfl (by simp [team_only_store]) (by simp [team_only_store])⟩

/-! ## C6 amended -/

/-- C6 amended: the author-only rule holds for the mutating Comment
operations but not for reads: when no comment with the given id is
authored by the principal, `update_comment` and `delete_comment`
return `None` and leave the store unchanged, while
`get_comment_by_id` is independent of the caller — any principal
reads any comment. -/
theorem comment_author_only_for_mutations (s : Store) (cid uid : Nat) (data : Option String)
    (h : ∀ c ∈ s.comments, c.id = cid → c.user_id ≠ uid) :
    update_comment s cid uid data = (s, none) ∧
    delete_comment s cid uid = (s, none) ∧
    ∀ u1 u2 : Nat, get_comment_by_id s cid u1 = get_comment_by_id s cid u2 := by
  have h1 : s.comments.filter (fun c => c.id == cid && c.user_id == uid) = [] := by
    apply List.filter_eq_nil_iff.mpr
    intro c hc
    simp only [Bool.and_eq_true, beq_iff_eq, not_and]
    exact h c hc
  have h2 : s.comments.filter (fun c => c.user_id == uid && c.id == cid) = [] := by
    apply List.filter_eq_nil_iff.mpr
    intro c hc
    simp only [Bool.and_eq_true, beq_iff_eq, not_and]
    intro hu hi
    exact h c hc hi hu
  refine ⟨?_, ?_, fun u1 u2 => rfl⟩
  · simp only [update_comment, h1, List.head?_nil]
  · simp only [delete_comment, h2, List.head?_nil]

/-- C6 witness: `comment_author_only_for_mutations` at the concrete
store where user 2 is not the author of comment 5. -/
theorem comment_author_only_for_mutations_w :
    update_comment comment_store 5 2 (some "x") = (comment_store, none) ∧
    delete_comment comment_store 5 2 = (comment_store, none) ∧
    ∀ u1 u2 : Nat, get_comment_by_id comment_store 5 u1 = get_comment_by_id comment_store 5 u2 :=
  comment_author_only_for_mutations comment_store 5 2 (some "x") (by decide)

/-! ## C7 -/

/-- The audit insert attempted inside `create_project` carries a raw
`uuid.UUID` `entity_id` and fails, so the service never changes the
log table — whichever branch runs. -/
theorem create_project_logs_unchanged (s : Store) (d : ProjectCreate) :
    (create_project s d).1.logs = s.logs := by
  cases h1 : get_user_team_by_id s d.user_id d.team_id with
  | none => simp [create_project, h1]
  | some t =>
    by_cases h2 : s.projects.any (fun p => p.user_id == d.user_id && p.title == d.title)
    · simp [create_project, h1, h2]
    · simp [create_project, h1, h2, create_activity]

/-- C7: no application operation ever updates or deletes an existing
`ActivityLog` row.  `delete_activity` — the only delete path — is a
no-op on the whole store: its `require_project_access` decorator
404s when the project is absent and raises `AttributeError` when it
exists, so the deleting body is dead code.  Every other embedded
operation leaves the log table unchanged (their audit inserts fail on
the raw-`uuid.UUID` `entity_id`), and `create_activity` itself at
most appends; previously written rows always survive untouched. -/
theorem activity_logs_never_updated_or_deleted (s : Store) :
    (∀ aid pid uid, (delete_activity s aid pid uid).1 = s) ∧
    (∀ d, ∃ tl, (create_activity s d).1.logs = s.logs ++ tl) ∧
    (∀ d, (create_project s d).1.logs = s.logs) ∧
    (∀ u req, (create_project_route s u req).1.logs = s.logs) ∧
    (∀ pid uid f, (update_project s pid uid f).1.logs = s.logs) ∧
    (∀ pid uid, (delete_project s pid uid).1.logs = s.logs) ∧
    (∀ tid uid data, (update_task s tid uid data).1.logs = s.logs) ∧
    (∀ cid uid data, (update_comment s cid uid data).1.logs = s.logs) ∧
    (∀ cid uid, (delete_comment s cid uid).1.logs = s.logs) ∧
    (∀ owner d, (add_member_to_team s owner d).1.logs = s.logs) := by
  refine ⟨?_, ?_, fun d => create_project_logs_unchanged s d, ?_, ?_, ?_, ?_, ?_, ?_, ?_⟩
  · intro aid pid uid
    cases hacc : require_project_access s pid uid <;> simp [delete_activity, hacc]
  · intro d
    cases hd : d.entity_id with
    | uuid i =>
      refine ⟨[], ?_⟩
      simp [create_activity, hd]
    | str v =>
      refine ⟨[⟨s.next_id, d.user_id, d.project_id, d.task_id, d.team_id, d.comment_id,
        d.activity_type, d.entity, v, d.description⟩], ?_⟩
      simp [create_activity, hd]
  · intro u req
    cases hc : create_project s
        { title := req.title, description := req.description
          team_id := req.team_id, user_id := u.id } with
    | mk s1 r =>
      have h1 : s1.logs = s.logs := by
        have h2 := create_project_logs_unchanged s
          { title := req.title, description := req.description
            team_id := req.team_id, user_id := u.id }
        rw [hc] at h2
        exact h2
      cases r with
      | ok p => simp [create_project_route, hc, create_activity, h1]
      | none_ => simp [create_project_route, hc, h1]
      | httpError c dt => simp [create_project_route, hc, h1]
  · intro pid uid f
    cases h : (s.projects.filter (fun p => p.id == pid && p.user_id == uid)).head? with
    | none => simp [update_project, h]
    | some p => simp [update_project, h, create_activity]
  · intro pid uid
    cases h : (s.projects.filter (fun p => p.id == pid && p.user_id == uid)).head? with
    | none => simp [delete_project, h]
    | some p => simp [delete_project, h, create_activity]
  · intro tid uid data
    cases h : (s.tasks.filter (fun t =>
        t.id == tid && (t.assigned_id == some uid || t.user_id == uid))).head? with
    | none => simp [update_task, h]
    | some t => simp [update_task, h, create_activity]
  · intro cid uid data
    cases h : (s.comments.filter (fun c => c.id == cid && c.user_id == uid)).head? with
    | none => simp [update_comment, h]
    | some c =>
      cases data with
      | none => simp [update_comment, h]
      | some v => simp [update_comment, h, create_activity]
  · intro cid uid
    cases h : (s.comments.filter (fun c => c.user_id == uid && c.id == cid)).head? with
    | none => simp [delete_comment, h]
    | some c => simp [delete_comment, h, create_activity]
  · intro owner d
    cases h : get_user_team_by_id s owner (some d.team_id) <;>
      simp [add_member_to_team, h]

/-! ## C8 -/

/-- C8: when the ownership lookup fails — no stored project carries
the requested id with the requesting principal as owner —
`update_project` and `delete_project` return `None` and the store
after the call equals the store before it: no entity is changed and
no `ActivityLog` row is written. -/
theorem project_mutations_noop_when_unauthorized (s : Store) (pid uid : Nat)
    (data : Project → Project)
    (h : ∀ p ∈ s.projects, ¬(p.id = pid ∧ p.user_id = uid)) :
    update_project s pid uid data = (s, none) ∧
    delete_project s pid uid = (s, none) := by
  have hfil : s.projects.filter (fun p => p.id == pid && p.user_id == uid) = [] := by
    apply List.filter_eq_nil_iff.mpr
    intro p hp
    simp only [Bool.and_eq_true, beq_iff_eq, not_and]
    intro h1 h2
    exact h p hp ⟨h1, h2⟩
  constructor
  · simp only [update_project, hfil, List.head?_nil]
  · simp only [delete_project, hfil, List.head?_nil]

/-- C8 witness: `project_mutations_noop_when_unauthorized` where user
2 asks for project 1 that user 1 owns. -/
theorem project_mutations_noop_when_unauthorized_w :
    update_project personal_project_store 1 2 (fun p => p) = (personal_project_store, none) ∧
    delete_project personal_project_store 1 2 = (personal_project_store, none) :=
  project_mutations_noop_when_unauthorized personal_project_store 1 2 (fun p => p) (by decide)

/-! ## C9 -/

/-- The patch loop of `update_task` never changes `project_id` or
`user_id`: entries that would set them carry keys outside
`ALLOWED_FIELDS` and are skipped, and every allow-listed entry leaves
both fields alone. -/
theorem apply_task_patch_preserves_ids (data : List TaskPatchEntry) (t : Task) :
    (apply_task_patch t data).project_id = t.project_id ∧
    (apply_task_patch t data).user_id = t.user_id := by
  induction data generalizing t with
  | nil => exact ⟨rfl, rfl⟩
  | cons e rest ih =>
    have hstep : apply_task_patch t (e :: rest) =
        apply_task_patch
          (if ALLOWED_FIELDS.contains (entry_key e) then set_task_attr t e else t) rest := rfl
    have he : (if ALLOWED_FIELDS.contains (entry_key e)
          then set_task_attr t e else t).project_id = t.project_id ∧
        (if ALLOWED_FIELDS.contains (entry_key e)
          then set_task_attr t e else t).user_id = t.user_id := by
      cases e <;> exact ⟨rfl, rfl⟩
    rw [hstep]
    exact ⟨((ih _).1).trans he.1, ((ih _).2).trans he.2⟩

/-- C9: for an authorized `update_task` call — the lookup by task id
where the principal is assignee or creator returns `t` — the update
returns a task whose `project_id` and `user_id` equal those of `t`,
whatever keys the patch dict contains. -/
theorem update_task_preserves_project_and_creator (s : Store) (tid uid : Nat)
    (data : List TaskPatchEntry) (t : Task)
    (h : (s.tasks.filter (fun x =>
        x.id == tid && (x.assigned_id == some uid || x.user_id == uid))).head? = some t) :
    ∃ t', (update_task s tid uid data).2 = some t' ∧
      t'.project_id = t.project_id ∧ t'.user_id = t.user_id := by
  refine ⟨apply_task_patch t data, ?_,
    (apply_task_patch_preserves_ids data t).1, (apply_task_patch_preserves_ids data t).2⟩
  simp only [update_task, h]

/-- C9 witness: `update_task_preserves_project_and_creator` for the
assignee (user 5) of task 1 with a patch that names `project_id`,
`user_id` and `title`. -/
theorem update_task_preserves_project_and_creator_w :
    ∃ t', (update_task task_store 1 5
        [.project_id 99, .user_id 42, .title "x"]).2 = some t' ∧
      t'.project_id = 2 ∧ t'.user_id = 4 :=
  update_task_preserves_project_and_creator task_store 1 5
    [.project_id 99, .user_id 42, .title "x"] ⟨1, 2, "t", none, .todo, .low, 0, 4, some 5⟩ rfl

/-! ## C10 amended -/

/-- C10 amended: `add_member_to_team` performs no duplicate check and
the `team_members` table carries no `(team_id, user_id)` uniqueness
constraint: whenever the owner lookup succeeds the insert succeeds,
and the number of rows with the member's `(team_id, user_id)` pair
grows by one — an existing pair is duplicated, not reported as a
conflict. -/
theorem add_member_to_team_never_conflicts (s : Store) (owner : Nat) (d : MemberCreate)
    (t : Team) (h : get_user_team_by_id s owner (some d.team_id) = some t) :
    (add_member_to_team s owner d).2 = some ⟨s.next_id, d.user_id, t.id⟩ ∧
    count_members_pair (add_member_to_team s owner d).1 t.id d.user_id =
      count_members_pair s t.id d.user_id + 1 := by
  constructor
  · simp only [add_member_to_team, h]
  · simp only [add_member_to_team, h, count_members_pair, List.filter_append]
    simp

/-- C10 witness: `add_member_to_team_never_conflicts` where user 2 is
already a member of team 10 — the second add still succeeds and the
pair count rises from 1 to 2. -/
theorem add_member_to_team_never_conflicts_w :
    (add_member_to_team dup_member_store 1 ⟨10, 2⟩).2 = some ⟨100, 2, 10⟩ ∧
    count_members_pair (add_member_to_team dup_member_store 1 ⟨10, 2⟩).1 10 2 =
      count_members_pair dup_member_store 10 2 + 1 :=
  add_member_to_team_never_conflicts dup_member_store 1 ⟨10, 2⟩ ⟨10, "T", 1⟩ rfl

end Manager
